import Mathlib

/-!
Verification development for the clawler browser command layer.

The repository exposes 31 browser-automation tools (src/tools.ts) over a
module-level singleton BrowserManager from the external agent-browser driver.
Each tool handler wraps one driver action in a try/catch and returns a uniform
result envelope.  This file gives a shallow embedding of that layer:

* driver actions are modelled by an Oracle record supplying the outcome
  (success value or thrown error message) of each awaited driver call;
* each tool handler body is a Lean function threading the process state
  explicitly, transcribed from the corresponding function in src/tools.ts;
* driver internals that live in the agent-browser package rather than under
  src (the tab registry, reference-token resolution and snapshot table
  replacement) are modelled from the spec, as marked on each such definition.
-/

namespace Clawler

/-- One content block of a tool result envelope, as produced in src/tools.ts:
a text block, or an image block with base64 data and a mime type. -/
inductive ContentBlock where
  | text (s : String)
  | image (data : String) (mimeType : String)
  deriving DecidableEq, Repr

/-- The uniform result envelope of every tool.  In the source a success
envelope simply omits the isError field (so reading it yields a falsy value);
that is modelled here as isError = false. -/
structure Envelope where
  content : List ContentBlock
  isError : Bool
  deriving DecidableEq, Repr

/-- Viewport size argument of browser_launch. -/
structure Viewport where
  width : Int
  height : Int
  deriving DecidableEq, Repr

/-- Modelled from the spec: one Page of the Tab Registry held by the driver
(BrowserManager), which is not under src.  Only the fields the registry
operations report are tracked; actual page content is driver-internal. -/
structure Tab where
  url : String
  title : String
  deriving DecidableEq, Repr

/-- The BrowserManager instance of src/tools.ts.  The mid field gives the
instance its identity (a fresh manager gets a fresh mid), launched mirrors
isLaunched(), headless and viewport record the launch configuration.
Modelled from the spec where the driver state is not under src: tabs and
active form the Tab Registry, refGen and refTable form the Reference
Resolver current-generation table that each snapshot replaces. -/
structure Manager where
  mid : Nat
  launched : Bool
  headless : Bool
  viewport : Option Viewport
  tabs : List Tab
  active : Nat
  refGen : Nat
  refTable : List String
  deriving DecidableEq, Repr

/-- new BrowserManager(): a fresh, not yet launched manager. -/
def newManager (id : Nat) : Manager :=
  { mid := id
    launched := false
    headless := true
    viewport := none
    tabs := []
    active := 0
    refGen := 0
    refTable := [] }

/-- The configuration actually handed to BrowserManager.launch. -/
structure LaunchOpts where
  headless : Bool
  viewport : Option Viewport
  deriving DecidableEq, Repr

/-- Modelled from the spec: a freshly launched Session holds one blank Page. -/
def blankTab : Tab := { url := "about:blank", title := "" }

/-- BrowserManager.launch on success: the manager becomes launched with the
given configuration and (modelled from the spec) one blank page. -/
def launchManager (m : Manager) (cfg : LaunchOpts) : Manager :=
  { m with
    launched := true
    headless := cfg.headless
    viewport := cfg.viewport
    tabs := [blankTab]
    active := 0 }

/-- The module-level mutable state of src/tools.ts: the browser singleton
(let browser: BrowserManager | null) plus a counter minting manager ids. -/
structure GlobalState where
  browser : Option Manager
  nextId : Nat
  deriving DecidableEq, Repr

/-- Result of the in-page script evaluation: the driver returned a string, or
a non-string value already rendered by JSON.stringify (driver side). -/
inductive EvalVal where
  | str (s : String)
  | json (s : String)
  deriving DecidableEq, Repr

/-- The state enum of browser_wait_for_selector. -/
inductive WaitState where
  | attached
  | detached
  | visible
  | hidden
  deriving DecidableEq, Repr

/-- Modelled from the spec: an element reference token minted by a snapshot.
Per the spec, token identity is tied to the snapshot generation that minted
it, not to node identity, so the token carries its generation. -/
structure RefToken where
  name : String
  gen : Nat
  deriving DecidableEq, Repr

/-- Modelled from the spec: the locator a caller passes to an
element-targeted command, as the tagged variant the spec prescribes - either
a structural CSS selector string or a reference token from a snapshot. -/
inductive Locator where
  | css (s : String)
  | ref (t : RefToken)
  deriving DecidableEq, Repr

/-- The string the caller originally typed for a locator (used verbatim in
the success texts of src/tools.ts). -/
def locStr : Locator → String
  | Locator.css s => s
  | Locator.ref t => t.name

/-- Outcomes of the awaited driver calls.  Each field gives the result of the
corresponding BrowserManager or page call: Except.ok for a resolved promise,
Except.error e for a rejection with message e.  Fields that the claims need
at finer grain take the arguments the handler passes to the driver. -/
structure Oracle where
  launchRes : Except String Unit
  gotoRes : String → Except String Unit
  titleRes : Except String String
  goBackRes : Except String Unit
  goForwardRes : Except String Unit
  reloadRes : Except String Unit
  clickRes : Except String Unit
  hoverRes : Except String Unit
  fillRes : Except String Unit
  typeRes : Except String Unit
  selectRes : Except String Unit
  checkRes : Except String Unit
  uncheckRes : Except String Unit
  pressRes : Except String Unit
  scrollElRes : Except String Unit
  wheelRes : Int → Int → Except String Unit
  shotRes : Except String String
  snapRes : Except String (String × List String)
  textContentRes : Except String (Option String)
  getAttrRes : Except String (Option String)
  pageUrlRes : Except String String
  evalRes : String → Except String EvalVal
  waitSelRes : String → WaitState → Int → Except String Unit
  waitUrlRes : String → Int → Except String Unit
  newTabRes : Except String Unit
  mouseRes : Except String Unit
  keyboardRes : Except String Unit
  closeRes : Except String Unit

/-- Result of one tool handler body: the content blocks it produced, or the
message of the exception it threw, together with the post state (mutations
made before a throw persist, as in the source). -/
abbrev BodyR := Except String (List ContentBlock) × GlobalState

/-- Sequencing of one possibly-throwing step inside a handler body: on a
throw the body ends with the error and the state reached so far, otherwise
the continuation runs. -/
def stepThen {α : Type} (r : Except String α × GlobalState)
    (k : α → GlobalState → BodyR) : BodyR :=
  match r with
  | (Except.error e, s) => (Except.error e, s)
  | (Except.ok a, s) => k a s

/-- The error envelope a catch block of src/tools.ts builds: isError true and
one text block of the form category-label, colon, underlying message. -/
def errEnv (lbl msg : String) : Envelope :=
  { content := [ContentBlock.text (lbl ++ ": " ++ msg)], isError := true }

/-- A success envelope. -/
def okEnv (cs : List ContentBlock) : Envelope :=
  { content := cs, isError := false }

/-- A success envelope with a single text block. -/
def okText (t : String) : Envelope :=
  okEnv [ContentBlock.text t]

/-- The try/catch of every tool handler: wrap the body outcome in an
envelope, converting a thrown error into the labelled error envelope. -/
def wrapB (lbl : String) (r : BodyR) : Envelope × GlobalState :=
  match r with
  | (Except.ok cs, s) => (okEnv cs, s)
  | (Except.error e, s) => (errEnv lbl e, s)

/-- getBrowser from src/tools.ts: if the singleton is null, assign a fresh
BrowserManager to it and then await its launch with headless true; the
assignment precedes the await, so on a launch failure the singleton keeps the
never-launched instance.  If the singleton is non-null it is returned as is,
with no launch attempt. -/
def getBrowserB (o : Oracle) (s : GlobalState) :
    Except String Manager × GlobalState :=
  match s.browser with
  | some m => (Except.ok m, s)
  | none =>
    let m0 := newManager s.nextId
    let s1 : GlobalState := { browser := some m0, nextId := s.nextId + 1 }
    match o.launchRes with
    | Except.ok _ =>
      let m1 := launchManager m0 { headless := true, viewport := none }
      (Except.ok m1, { s1 with browser := some m1 })
    | Except.error e => (Except.error e, s1)

/-- Modelled from the spec: BrowserManager.getLocator (agent-browser, not
under src).  A structural selector is delegated to the driver unchecked; a
reference token resolves only in the current-generation table - it must carry
the current generation and be present in the table, otherwise resolution
fails with UnknownReferenceError. -/
def getLocator (m : Manager) (loc : Locator) : Except String Unit :=
  match loc with
  | Locator.css _ => Except.ok ()
  | Locator.ref t =>
    if t.gen = m.refGen ∧ t.name ∈ m.refTable then Except.ok ()
    else Except.error "UnknownReferenceError"

/-- Replace the manager held by the singleton. -/
def setMgr (s : GlobalState) (m : Manager) : GlobalState :=
  { s with browser := some m }

/-- The javascript or-default on an optional number, as written with the
logical-or operator in the source: an absent value and an explicit 0 (both
falsy) yield the default, every other number is kept. -/
def jsOrInt (v : Option Int) (d : Int) : Int :=
  match v with
  | none => d
  | some n => if n = 0 then d else n

/-- The javascript or-default on a nullable string: null and the empty
string (both falsy) yield the default. -/
def jsOrStr (v : Option String) (d : String) : String :=
  match v with
  | none => d
  | some t => if t = "" then d else t

/-- How javascript renders an optional string in a template literal:
undefined prints as the word undefined. -/
def renderJs : Option String → String
  | none => "undefined"
  | some s => s

/-- The template fragment of browser_keyboard_event: key or-else text, where
an absent or empty key falls through to text. -/
def jsOrUndef (k t : Option String) : String :=
  match k with
  | none => renderJs t
  | some s => if s = "" then renderJs t else s

/-- Effective wait state of browser_wait_for_selector: the source applies
or-default visible (the enum strings are nonempty, so this is just
default-when-absent). -/
def effWaitState (st : Option WaitState) : WaitState :=
  match st with
  | none => WaitState.visible
  | some x => x

/-- Effective timeout of the two waiting commands: the source applies
or-default 30000 with the logical-or operator, so an absent timeout and an
explicit 0 both become 30000. -/
def effTimeout (t : Option Int) : Int :=
  match t with
  | none => 30000
  | some v => if v = 0 then 30000 else v

/-- Rendering of the evaluate result: a string is returned as is, any other
value was serialized by the driver-side JSON.stringify. -/
def evalText : EvalVal → String
  | EvalVal.str s => s
  | EvalVal.json j => j

/-- The two content blocks of a successful browser_screenshot. -/
def shotContent (data : String) : List ContentBlock :=
  [ContentBlock.image data "image/png",
   ContentBlock.text "Screenshot captured. Analyze the image to understand page content and layout."]

/-- The mouse button enum of browser_click. -/
inductive MouseButton where
  | left
  | right
  | middle
  deriving DecidableEq, Repr

/-- The button enum of browser_mouse_event (includes none). -/
inductive InjButton where
  | left
  | right
  | middle
  | noButton
  deriving DecidableEq, Repr

/-- The event type enum of browser_mouse_event. -/
inductive MouseEventType where
  | mousePressed
  | mouseReleased
  | mouseMoved
  | mouseWheel
  deriving DecidableEq, Repr

/-- Template rendering of a mouse event type. -/
def mouseEventTypeStr : MouseEventType → String
  | MouseEventType.mousePressed => "mousePressed"
  | MouseEventType.mouseReleased => "mouseReleased"
  | MouseEventType.mouseMoved => "mouseMoved"
  | MouseEventType.mouseWheel => "mouseWheel"

/-- The event type enum of browser_keyboard_event. -/
inductive KeyEventType where
  | keyDown
  | keyUp
  | charEvent
  deriving DecidableEq, Repr

/-- Template rendering of a keyboard event type. -/
def keyEventTypeStr : KeyEventType → String
  | KeyEventType.keyDown => "keyDown"
  | KeyEventType.keyUp => "keyUp"
  | KeyEventType.charEvent => "char"

/-- The value union of browser_select: one string or an array of strings. -/
inductive SelValues where
  | one (s : String)
  | many (ss : List String)
  deriving DecidableEq, Repr

/-- Body of browser_launch when no launched browser exists: assign a fresh
manager to the singleton, then await launch with headless defaulted to true
by the nullish-coalescing operator and the viewport argument passed along. -/
def launchFresh (o : Oracle) (hl : Option Bool) (vp : Option Viewport)
    (s : GlobalState) : BodyR :=
  let m0 := newManager s.nextId
  let s1 : GlobalState := { browser := some m0, nextId := s.nextId + 1 }
  match o.launchRes with
  | Except.ok _ =>
    let m1 := launchManager m0 { headless := hl.getD true, viewport := vp }
    (Except.ok [ContentBlock.text "Browser launched successfully"],
      { s1 with browser := some m1 })
  | Except.error e => (Except.error e, s1)

/-- Body of browser_launch: if the singleton is non-null and launched,
report it is already running without touching it; otherwise create and
launch a fresh manager. -/
def launchBody (o : Oracle) (hl : Option Bool) (vp : Option Viewport)
    (s : GlobalState) : BodyR :=
  match s.browser with
  | some m =>
    if m.launched then (Except.ok [ContentBlock.text "Browser already running"], s)
    else launchFresh o hl vp s
  | none => launchFresh o hl vp s

/-- Body of browser_navigate. -/
def navigateBody (o : Oracle) (url : String) (s : GlobalState) : BodyR :=
  stepThen (getBrowserB o s) fun _ s1 =>
  stepThen (o.gotoRes url, s1) fun _ s2 =>
  stepThen (o.titleRes, s2) fun title s3 =>
  (Except.ok [ContentBlock.text ("Navigated to " ++ url ++ "\nTitle: " ++ title)], s3)

/-- Body of browser_back. -/
def backBody (o : Oracle) (s : GlobalState) : BodyR :=
  stepThen (getBrowserB o s) fun _ s1 =>
  stepThen (o.goBackRes, s1) fun _ s2 =>
  (Except.ok [ContentBlock.text "Navigated back"], s2)

/-- Body of browser_forward. -/
def forwardBody (o : Oracle) (s : GlobalState) : BodyR :=
  stepThen (getBrowserB o s) fun _ s1 =>
  stepThen (o.goForwardRes, s1) fun _ s2 =>
  (Except.ok [ContentBlock.text "Navigated forward"], s2)

/-- Body of browser_reload. -/
def reloadBody (o : Oracle) (s : GlobalState) : BodyR :=
  stepThen (getBrowserB o s) fun _ s1 =>
  stepThen (o.reloadRes, s1) fun _ s2 =>
  (Except.ok [ContentBlock.text "Page reloaded"], s2)

/-- Body of browser_click: resolve the locator then click. -/
def clickBody (o : Oracle) (loc : Locator) (_button : Option MouseButton)
    (_clickCount : Option Int) (s : GlobalState) : BodyR :=
  stepThen (getBrowserB o s) fun b s1 =>
  stepThen (getLocator b loc, s1) fun _ s2 =>
  stepThen (o.clickRes, s2) fun _ s3 =>
  (Except.ok [ContentBlock.text ("Clicked \"" ++ locStr loc ++ "\"")], s3)

/-- Body of browser_hover. -/
def hoverBody (o : Oracle) (loc : Locator) (s : GlobalState) : BodyR :=
  stepThen (getBrowserB o s) fun b s1 =>
  stepThen (getLocator b loc, s1) fun _ s2 =>
  stepThen (o.hoverRes, s2) fun _ s3 =>
  (Except.ok [ContentBlock.text ("Hovering over \"" ++ locStr loc ++ "\"")], s3)

/-- Body of browser_fill. -/
def fillBody (o : Oracle) (loc : Locator) (_text : String) (s : GlobalState) : BodyR :=
  stepThen (getBrowserB o s) fun b s1 =>
  stepThen (getLocator b loc, s1) fun _ s2 =>
  stepThen (o.fillRes, s2) fun _ s3 =>
  (Except.ok [ContentBlock.text ("Filled \"" ++ locStr loc ++ "\"")], s3)

/-- Body of browser_type. -/
def typeBody (o : Oracle) (loc : Locator) (_text : String) (_delay : Option Int)
    (s : GlobalState) : BodyR :=
  stepThen (getBrowserB o s) fun b s1 =>
  stepThen (getLocator b loc, s1) fun _ s2 =>
  stepThen (o.typeRes, s2) fun _ s3 =>
  (Except.ok [ContentBlock.text ("Typed into \"" ++ locStr loc ++ "\"")], s3)

/-- Body of browser_select. -/
def selectBody (o : Oracle) (loc : Locator) (_values : SelValues)
    (s : GlobalState) : BodyR :=
  stepThen (getBrowserB o s) fun b s1 =>
  stepThen (getLocator b loc, s1) fun _ s2 =>
  stepThen (o.selectRes, s2) fun _ s3 =>
  (Except.ok [ContentBlock.text ("Selected in \"" ++ locStr loc ++ "\"")], s3)

/-- Body of browser_check. -/
def checkBody (o : Oracle) (loc : Locator) (s : GlobalState) : BodyR :=
  stepThen (getBrowserB o s) fun b s1 =>
  stepThen (getLocator b loc, s1) fun _ s2 =>
  stepThen (o.checkRes, s2) fun _ s3 =>
  (Except.ok [ContentBlock.text ("Checked \"" ++ locStr loc ++ "\"")], s3)

/-- Body of browser_uncheck. -/
def uncheckBody (o : Oracle) (loc : Locator) (s : GlobalState) : BodyR :=
  stepThen (getBrowserB o s) fun b s1 =>
  stepThen (getLocator b loc, s1) fun _ s2 =>
  stepThen (o.uncheckRes, s2) fun _ s3 =>
  (Except.ok [ContentBlock.text ("Unchecked \"" ++ locStr loc ++ "\"")], s3)

/-- Body of browser_press: focus a locator first when one is given. -/
def pressBody (o : Oracle) (key : String) (sel : Option Locator)
    (s : GlobalState) : BodyR :=
  stepThen (getBrowserB o s) fun b s1 =>
  match sel with
  | some loc =>
    stepThen (getLocator b loc, s1) fun _ s2 =>
    stepThen (o.pressRes, s2) fun _ s3 =>
    (Except.ok [ContentBlock.text ("Pressed \"" ++ key ++ "\"")], s3)
  | none =>
    stepThen (o.pressRes, s1) fun _ s2 =>
    (Except.ok [ContentBlock.text ("Pressed \"" ++ key ++ "\"")], s2)

/-- Body of browser_scroll: scroll an element into view when a selector is
given, otherwise wheel by the or-defaulted amounts. -/
def scrollBody (o : Oracle) (sel : Option Locator) (x y : Option Int)
    (s : GlobalState) : BodyR :=
  stepThen (getBrowserB o s) fun b s1 =>
  match sel with
  | some loc =>
    stepThen (getLocator b loc, s1) fun _ s2 =>
    stepThen (o.scrollElRes, s2) fun _ s3 =>
    (Except.ok [ContentBlock.text "Scrolled"], s3)
  | none =>
    stepThen (o.wheelRes (jsOrInt x 0) (jsOrInt y 300), s1) fun _ s2 =>
    (Except.ok [ContentBlock.text "Scrolled"], s2)

/-- Body of browser_screenshot. -/
def screenshotBody (o : Oracle) (_fullPage : Option Bool) (sel : Option Locator)
    (s : GlobalState) : BodyR :=
  stepThen (getBrowserB o s) fun b s1 =>
  match sel with
  | some loc =>
    stepThen (getLocator b loc, s1) fun _ s2 =>
    stepThen (o.shotRes, s2) fun data s3 =>
    (Except.ok (shotContent data), s3)
  | none =>
    stepThen (o.shotRes, s1) fun data s2 =>
    (Except.ok (shotContent data), s2)

/-- Body of browser_snapshot.  The driver returns the rendered tree text and
the minted token names; modelled from the spec, the snapshot replaces the
reference table and advances the generation, so earlier-generation tokens
stop resolving. -/
def snapshotBody (o : Oracle) (_interactive _compact : Option Bool)
    (_maxDepth : Option Int) (s : GlobalState) : BodyR :=
  stepThen (getBrowserB o s) fun b s1 =>
  stepThen (o.snapRes, s1) fun r s2 =>
  let b2 := { b with refGen := b.refGen + 1, refTable := r.2 }
  (Except.ok [ContentBlock.text
    ("Accessibility tree:\n" ++ r.1 ++
     "\n\nUse element refs (e.g., \x27e1\x27, \x27e2\x27) with browser_click, browser_fill, etc.")],
   setMgr s2 b2)

/-- Body of browser_get_text: a null or empty text content is rendered by
the or-default as the literal string (empty). -/
def getTextBody (o : Oracle) (loc : Locator) (s : GlobalState) : BodyR :=
  stepThen (getBrowserB o s) fun b s1 =>
  stepThen (getLocator b loc, s1) fun _ s2 =>
  stepThen (o.textContentRes, s2) fun t s3 =>
  (Except.ok [ContentBlock.text (jsOrStr t "(empty)")], s3)

/-- Body of browser_get_attribute: a missing attribute or empty value is
rendered by the or-default as the literal string (null). -/
def getAttributeBody (o : Oracle) (loc : Locator) (_attr : String)
    (s : GlobalState) : BodyR :=
  stepThen (getBrowserB o s) fun b s1 =>
  stepThen (getLocator b loc, s1) fun _ s2 =>
  stepThen (o.getAttrRes, s2) fun v s3 =>
  (Except.ok [ContentBlock.text (jsOrStr v "(null)")], s3)

/-- Body of browser_get_url. -/
def getUrlBody (o : Oracle) (s : GlobalState) : BodyR :=
  stepThen (getBrowserB o s) fun _ s1 =>
  stepThen (o.pageUrlRes, s1) fun u s2 =>
  (Except.ok [ContentBlock.text u], s2)

/-- Body of browser_get_title. -/
def getTitleBody (o : Oracle) (s : GlobalState) : BodyR :=
  stepThen (getBrowserB o s) fun _ s1 =>
  stepThen (o.titleRes, s1) fun t s2 =>
  (Except.ok [ContentBlock.text t], s2)

/-- Body of browser_evaluate. -/
def evaluateBody (o : Oracle) (script : String) (s : GlobalState) : BodyR :=
  stepThen (getBrowserB o s) fun _ s1 =>
  stepThen (o.evalRes script, s1) fun v s2 =>
  (Except.ok [ContentBlock.text (evalText v)], s2)

/-- Body of browser_wait_for_selector: the driver receives the effective
state (default visible) and effective timeout (or-default 30000). -/
def waitForSelectorBody (o : Oracle) (sel : String) (st : Option WaitState)
    (t : Option Int) (s : GlobalState) : BodyR :=
  stepThen (getBrowserB o s) fun _ s1 =>
  stepThen (o.waitSelRes sel (effWaitState st) (effTimeout t), s1) fun _ s2 =>
  (Except.ok [ContentBlock.text ("Element \"" ++ sel ++ "\" found")], s2)

/-- Body of browser_wait_for_url: the driver receives the effective timeout
(or-default 30000). -/
def waitForUrlBody (o : Oracle) (url : String) (t : Option Int)
    (s : GlobalState) : BodyR :=
  stepThen (getBrowserB o s) fun _ s1 =>
  stepThen (o.waitUrlRes url (effTimeout t), s1) fun _ s2 =>
  (Except.ok [ContentBlock.text ("URL matched: " ++ url)], s2)

/-- Body of browser_wait: a plain timer, never a failure. -/
def waitBody (ms : Int) (s : GlobalState) : BodyR :=
  (Except.ok [ContentBlock.text ("Waited " ++ toString ms ++ "ms")], s)

/-- Body of browser_new_tab.  Modelled from the spec for the registry part:
the new page is appended and becomes active; its index and the new total are
reported.  When a url is given the new page is then navigated, after the
registry mutation. -/
def newTabBody (o : Oracle) (url : Option String) (s : GlobalState) : BodyR :=
  stepThen (getBrowserB o s) fun b s1 =>
  stepThen (o.newTabRes, s1) fun _ s2 =>
  let idx := b.tabs.length
  let b2 := { b with tabs := b.tabs ++ [blankTab], active := idx }
  let s3 := setMgr s2 b2
  match url with
  | some u =>
    stepThen (o.gotoRes u, s3) fun _ s4 =>
    (Except.ok [ContentBlock.text
      ("Opened tab " ++ toString idx ++ " of " ++ toString (idx + 1) ++ " at " ++ u)], s4)
  | none =>
    (Except.ok [ContentBlock.text
      ("Opened tab " ++ toString idx ++ " of " ++ toString (idx + 1))], s3)

/-- Modelled from the spec: BrowserManager.switchTo (agent-browser, not
under src).  An index that is not a currently valid page index fails with
IndexOutOfRangeError and leaves the registry untouched; a valid one marks
that page active and reports its identity. -/
def switchTo (m : Manager) (i : Int) : Except String (Nat × Tab) × Manager :=
  if h : 0 ≤ i ∧ i.toNat < m.tabs.length then
    (Except.ok (i.toNat, m.tabs.get ⟨i.toNat, h.2⟩), { m with active := i.toNat })
  else
    (Except.error "IndexOutOfRangeError", m)

/-- Body of browser_switch_tab. -/
def switchTabBody (o : Oracle) (i : Int) (s : GlobalState) : BodyR :=
  stepThen (getBrowserB o s) fun b s1 =>
  match switchTo b i with
  | (Except.error e, _) => (Except.error e, s1)
  | (Except.ok r, b2) =>
    (Except.ok [ContentBlock.text
      ("Switched to tab " ++ toString r.1 ++ ": " ++ r.2.title ++ "\nURL: " ++ r.2.url)],
     setMgr s1 b2)

/-- One line of the browser_list_tabs output. -/
def tabLine (act : Bool) (i : Nat) (t : Tab) : String :=
  (if act then "→ " else "  ") ++ "[" ++ toString i ++ "] " ++ t.title ++
    "\n     " ++ t.url

/-- The browser_list_tabs output text.  Modelled from the spec for the
registry read: an ordered, non-mutating listing with the active page
marked. -/
def listTabsText (m : Manager) : String :=
  String.intercalate "\n" (m.tabs.mapIdx fun i t => tabLine (i = m.active) i t)

/-- Body of browser_list_tabs. -/
def listTabsBody (o : Oracle) (s : GlobalState) : BodyR :=
  stepThen (getBrowserB o s) fun b s1 =>
  (Except.ok [ContentBlock.text (listTabsText b)], s1)

/-- Modelled from the spec: closing the page at position k of the registry.
If the active page is closed, activation falls to the page immediately
before it in index order, or to the new last page when none precedes; a
close below the active index renumbers the active pointer down by one. -/
def closeAt (m : Manager) (k : Nat) : Except String (Nat × Nat) × Manager :=
  let tabs2 := m.tabs.eraseIdx k
  let act2 :=
    if m.active = k then (if k = 0 then tabs2.length - 1 else k - 1)
    else if k < m.active then m.active - 1
    else m.active
  (Except.ok (k, tabs2.length), { m with tabs := tabs2, active := act2 })

/-- Modelled from the spec: BrowserManager.closeTab (agent-browser, not
under src).  Fails when the registry is empty or an explicit index is out of
range; otherwise closes the indexed page, or the active page when the index
is omitted. -/
def closeTabM (m : Manager) (i : Option Int) : Except String (Nat × Nat) × Manager :=
  if m.tabs.isEmpty then (Except.error "IndexOutOfRangeError", m)
  else
    match i with
    | some j =>
      if 0 ≤ j ∧ j.toNat < m.tabs.length then closeAt m j.toNat
      else (Except.error "IndexOutOfRangeError", m)
    | none => closeAt m m.active

/-- Body of browser_close_tab. -/
def closeTabBody (o : Oracle) (i : Option Int) (s : GlobalState) : BodyR :=
  stepThen (getBrowserB o s) fun b s1 =>
  match closeTabM b i with
  | (Except.error e, _) => (Except.error e, s1)
  | (Except.ok r, b2) =>
    (Except.ok [ContentBlock.text
      ("Closed tab " ++ toString r.1 ++ ", " ++ toString r.2 ++ " tabs remaining")],
     setMgr s1 b2)

/-- Body of browser_mouse_event. -/
def mouseEventBody (o : Oracle) (ty : MouseEventType) (x y : Int)
    (_button : Option InjButton) (_clickCount _deltaX _deltaY : Option Int)
    (s : GlobalState) : BodyR :=
  stepThen (getBrowserB o s) fun _ s1 =>
  stepThen (o.mouseRes, s1) fun _ s2 =>
  (Except.ok [ContentBlock.text
    ("Mouse " ++ mouseEventTypeStr ty ++ " at (" ++ toString x ++ ", " ++ toString y ++ ")")], s2)

/-- Body of browser_keyboard_event. -/
def keyboardEventBody (o : Oracle) (ty : KeyEventType)
    (key : Option String) (_code : Option String) (text : Option String)
    (s : GlobalState) : BodyR :=
  stepThen (getBrowserB o s) fun _ s1 =>
  stepThen (o.keyboardRes, s1) fun _ s2 =>
  (Except.ok [ContentBlock.text
    ("Keyboard " ++ keyEventTypeStr ty ++ ": " ++ jsOrUndef key text)], s2)

/-- Body of browser_close: when a singleton exists, await its close and only
then null the singleton - a throwing close leaves the singleton in place;
when none exists the command is a safe no-op reporting success. -/
def closeBody (o : Oracle) (s : GlobalState) : BodyR :=
  match s.browser with
  | some _ =>
    match o.closeRes with
    | Except.ok _ => (Except.ok [ContentBlock.text "Browser closed"], { s with browser := none })
    | Except.error e => (Except.error e, s)
  | none => (Except.ok [ContentBlock.text "Browser closed"], s)

/-- The 31 command tools registered in browserToolsServer (src/tools.ts). -/
inductive ToolId where
  | launch
  | navigate
  | back
  | forward
  | reload
  | click
  | hover
  | fill
  | typeText
  | select
  | check
  | uncheck
  | press
  | scroll
  | screenshot
  | snapshot
  | getText
  | getAttribute
  | getUrl
  | getTitle
  | evaluate
  | waitForSelector
  | waitForUrl
  | wait
  | newTab
  | switchTab
  | listTabs
  | closeTab
  | mouseEvent
  | keyboardEvent
  | close
  deriving DecidableEq, Repr

/-- The error-category label each catch block of src/tools.ts puts before
the colon and the underlying message. -/
def failLabel : ToolId → String
  | ToolId.launch => "Launch failed"
  | ToolId.navigate => "Navigation failed"
  | ToolId.back => "Back failed"
  | ToolId.forward => "Forward failed"
  | ToolId.reload => "Reload failed"
  | ToolId.click => "Click failed"
  | ToolId.hover => "Hover failed"
  | ToolId.fill => "Fill failed"
  | ToolId.typeText => "Type failed"
  | ToolId.select => "Select failed"
  | ToolId.check => "Check failed"
  | ToolId.uncheck => "Uncheck failed"
  | ToolId.press => "Press failed"
  | ToolId.scroll => "Scroll failed"
  | ToolId.screenshot => "Screenshot failed"
  | ToolId.snapshot => "Snapshot failed"
  | ToolId.getText => "Get text failed"
  | ToolId.getAttribute => "Get attribute failed"
  | ToolId.getUrl => "Get URL failed"
  | ToolId.getTitle => "Get title failed"
  | ToolId.evaluate => "Evaluate failed"
  | ToolId.waitForSelector => "Wait failed"
  | ToolId.waitForUrl => "Wait for URL failed"
  | ToolId.wait => "Wait failed"
  | ToolId.newTab => "New tab failed"
  | ToolId.switchTab => "Switch tab failed"
  | ToolId.listTabs => "List tabs failed"
  | ToolId.closeTab => "Close tab failed"
  | ToolId.mouseEvent => "Mouse event failed"
  | ToolId.keyboardEvent => "Keyboard event failed"
  | ToolId.close => "Close failed"

/-- The tools array passed to createSdkMcpServer, in source order. -/
def serverTools : List ToolId :=
  [ToolId.launch, ToolId.navigate, ToolId.back, ToolId.forward, ToolId.reload,
   ToolId.click, ToolId.hover, ToolId.fill, ToolId.typeText, ToolId.select,
   ToolId.check, ToolId.uncheck, ToolId.press, ToolId.scroll,
   ToolId.screenshot, ToolId.snapshot, ToolId.getText, ToolId.getAttribute,
   ToolId.getUrl, ToolId.getTitle, ToolId.evaluate, ToolId.waitForSelector,
   ToolId.waitForUrl, ToolId.wait, ToolId.newTab, ToolId.switchTab,
   ToolId.listTabs, ToolId.closeTab, ToolId.mouseEvent, ToolId.keyboardEvent,
   ToolId.close]

/-- A command invocation: one tool together with a schema-valid argument
object (required arguments present, optional ones as Option). -/
inductive Call where
  | launch (headless : Option Bool) (viewport : Option Viewport)
  | navigate (url : String)
  | back
  | forward
  | reload
  | click (selector : Locator) (button : Option MouseButton) (clickCount : Option Int)
  | hover (selector : Locator)
  | fill (selector : Locator) (text : String)
  | typeText (selector : Locator) (text : String) (delay : Option Int)
  | select (selector : Locator) (values : SelValues)
  | check (selector : Locator)
  | uncheck (selector : Locator)
  | press (key : String) (selector : Option Locator)
  | scroll (selector : Option Locator) (x : Option Int) (y : Option Int)
  | screenshot (fullPage : Option Bool) (selector : Option Locator)
  | snapshot (interactive : Option Bool) (compact : Option Bool) (maxDepth : Option Int)
  | getText (selector : Locator)
  | getAttribute (selector : Locator) (attr : String)
  | getUrl
  | getTitle
  | evaluate (script : String)
  | waitForSelector (selector : String) (state : Option WaitState) (timeout : Option Int)
  | waitForUrl (url : String) (timeout : Option Int)
  | wait (ms : Int)
  | newTab (url : Option String)
  | switchTab (index : Int)
  | listTabs
  | closeTab (index : Option Int)
  | mouseEvent (ty : MouseEventType) (x : Int) (y : Int) (button : Option InjButton)
      (clickCount : Option Int) (deltaX : Option Int) (deltaY : Option Int)
  | keyboardEvent (ty : KeyEventType) (key : Option String) (code : Option String)
      (text : Option String)
  | close
  deriving DecidableEq, Repr

/-- The tool a call invokes. -/
def toolOfCall : Call → ToolId
  | Call.launch _ _ => ToolId.launch
  | Call.navigate _ => ToolId.navigate
  | Call.back => ToolId.back
  | Call.forward => ToolId.forward
  | Call.reload => ToolId.reload
  | Call.click _ _ _ => ToolId.click
  | Call.hover _ => ToolId.hover
  | Call.fill _ _ => ToolId.fill
  | Call.typeText _ _ _ => ToolId.typeText
  | Call.select _ _ => ToolId.select
  | Call.check _ => ToolId.check
  | Call.uncheck _ => ToolId.uncheck
  | Call.press _ _ => ToolId.press
  | Call.scroll _ _ _ => ToolId.scroll
  | Call.screenshot _ _ => ToolId.screenshot
  | Call.snapshot _ _ _ => ToolId.snapshot
  | Call.getText _ => ToolId.getText
  | Call.getAttribute _ _ => ToolId.getAttribute
  | Call.getUrl => ToolId.getUrl
  | Call.getTitle => ToolId.getTitle
  | Call.evaluate _ => ToolId.evaluate
  | Call.waitForSelector _ _ _ => ToolId.waitForSelector
  | Call.waitForUrl _ _ => ToolId.waitForUrl
  | Call.wait _ => ToolId.wait
  | Call.newTab _ => ToolId.newTab
  | Call.switchTab _ => ToolId.switchTab
  | Call.listTabs => ToolId.listTabs
  | Call.closeTab _ => ToolId.closeTab
  | Call.mouseEvent _ _ _ _ _ _ _ => ToolId.mouseEvent
  | Call.keyboardEvent _ _ _ _ => ToolId.keyboardEvent
  | Call.close => ToolId.close

/-- The command dispatcher: every tool handler runs its body under the
try/catch wrapper with its own error-category label, exactly as each tool
definition in src/tools.ts does. -/
def dispatch (o : Oracle) (c : Call) (s : GlobalState) : Envelope × GlobalState :=
  match c with
  | Call.launch hl vp => wrapB "Launch failed" (launchBody o hl vp s)
  | Call.navigate u => wrapB "Navigation failed" (navigateBody o u s)
  | Call.back => wrapB "Back failed" (backBody o s)
  | Call.forward => wrapB "Forward failed" (forwardBody o s)
  | Call.reload => wrapB "Reload failed" (reloadBody o s)
  | Call.click sel b k => wrapB "Click failed" (clickBody o sel b k s)
  | Call.hover sel => wrapB "Hover failed" (hoverBody o sel s)
  | Call.fill sel t => wrapB "Fill failed" (fillBody o sel t s)
  | Call.typeText sel t d => wrapB "Type failed" (typeBody o sel t d s)
  | Call.select sel v => wrapB "Select failed" (selectBody o sel v s)
  | Call.check sel => wrapB "Check failed" (checkBody o sel s)
  | Call.uncheck sel => wrapB "Uncheck failed" (uncheckBody o sel s)
  | Call.press k sel => wrapB "Press failed" (pressBody o k sel s)
  | Call.scroll sel x y => wrapB "Scroll failed" (scrollBody o sel x y s)
  | Call.screenshot fp sel => wrapB "Screenshot failed" (screenshotBody o fp sel s)
  | Call.snapshot i cp d => wrapB "Snapshot failed" (snapshotBody o i cp d s)
  | Call.getText sel => wrapB "Get text failed" (getTextBody o sel s)
  | Call.getAttribute sel a => wrapB "Get attribute failed" (getAttributeBody o sel a s)
  | Call.getUrl => wrapB "Get URL failed" (getUrlBody o s)
  | Call.getTitle => wrapB "Get title failed" (getTitleBody o s)
  | Call.evaluate sc => wrapB "Evaluate failed" (evaluateBody o sc s)
  | Call.waitForSelector sel st t => wrapB "Wait failed" (waitForSelectorBody o sel st t s)
  | Call.waitForUrl u t => wrapB "Wait for URL failed" (waitForUrlBody o u t s)
  | Call.wait ms => wrapB "Wait failed" (waitBody ms s)
  | Call.newTab u => wrapB "New tab failed" (newTabBody o u s)
  | Call.switchTab i => wrapB "Switch tab failed" (switchTabBody o i s)
  | Call.listTabs => wrapB "List tabs failed" (listTabsBody o s)
  | Call.closeTab i => wrapB "Close tab failed" (closeTabBody o i s)
  | Call.mouseEvent ty x y b k dx dy =>
      wrapB "Mouse event failed" (mouseEventBody o ty x y b k dx dy s)
  | Call.keyboardEvent ty k cd t =>
      wrapB "Keyboard event failed" (keyboardEventBody o ty k cd t s)
  | Call.close => wrapB "Close failed" (closeBody o s)

/-- An oracle on which every driver call succeeds, for concrete runs. -/
def oracleOk : Oracle :=
  { launchRes := Except.ok ()
    gotoRes := fun _ => Except.ok ()
    titleRes := Except.ok "Example"
    goBackRes := Except.ok ()
    goForwardRes := Except.ok ()
    reloadRes := Except.ok ()
    clickRes := Except.ok ()
    hoverRes := Except.ok ()
    fillRes := Except.ok ()
    typeRes := Except.ok ()
    selectRes := Except.ok ()
    checkRes := Except.ok ()
    uncheckRes := Except.ok ()
    pressRes := Except.ok ()
    scrollElRes := Except.ok ()
    wheelRes := fun _ _ => Except.ok ()
    shotRes := Except.ok "aGVsbG8="
    snapRes := Except.ok ("- button \x22Go\x22 [ref=e1]", ["e1"])
    textContentRes := Except.ok (some "hello")
    getAttrRes := Except.ok (some "https://example.test")
    pageUrlRes := Except.ok "https://example.test/"
    evalRes := fun _ => Except.ok (EvalVal.str "42")
    waitSelRes := fun _ _ _ => Except.ok ()
    waitUrlRes := fun _ _ => Except.ok ()
    newTabRes := Except.ok ()
    mouseRes := Except.ok ()
    keyboardRes := Except.ok ()
    closeRes := Except.ok () }

/-- The initial process state: no singleton yet. -/
def st0 : GlobalState := { browser := none, nextId := 0 }

/-- A live launched manager with two tabs, for concrete runs. -/
def mgrLive : Manager :=
  { mid := 0
    launched := true
    headless := true
    viewport := none
    tabs := [blankTab, { url := "https://example.test/", title := "Example" }]
    active := 1
    refGen := 0
    refTable := [] }

/-- A state holding the live manager. -/
def stLive : GlobalState := { browser := some mgrLive, nextId := 1 }

/-- A state holding a never-launched manager, as left behind by a failed
lazy launch. -/
def stStuck : GlobalState := { browser := some (newManager 0), nextId := 1 }

/-- An oracle whose waiting calls time out. -/
def oracleWaitFail : Oracle :=
  { oracleOk with
    waitSelRes := fun _ _ _ => Except.error "Timeout 30000ms exceeded"
    waitUrlRes := fun _ _ => Except.error "Timeout 30000ms exceeded" }

/-- An oracle whose browser launch fails. -/
def oracleLaunchFail : Oracle :=
  { oracleOk with launchRes := Except.error "spawn chromium ENOENT" }

/-- An oracle whose element reads come back null. -/
def oracleNullRead : Oracle :=
  { oracleOk with
    textContentRes := Except.ok none
    getAttrRes := Except.ok none }

/-- A body result whose success content is never empty. -/
def okNE (r : BodyR) : Prop := ∀ cs, r.1 = Except.ok cs → cs ≠ []

theorem okNE_err (e : String) (s : GlobalState) :
    okNE (Except.error e, s) := by
  intro cs h
  simp at h

theorem okNE_ret (x : ContentBlock) (l : List ContentBlock) (s : GlobalState) :
    okNE (Except.ok (x :: l), s) := by
  intro cs h
  injection h with h2
  subst h2
  simp

theorem okNE_stepThen {α : Type} (r : Except String α × GlobalState)
    (k : α → GlobalState → BodyR) (hk : ∀ a s, okNE (k a s)) :
    okNE (stepThen r k) := by
  rcases r with ⟨x, s⟩
  cases x with
  | error e => exact okNE_err e s
  | ok a => exact hk a s

theorem okNE_launchFresh (o : Oracle) (hl : Option Bool) (vp : Option Viewport)
    (s : GlobalState) : okNE (launchFresh o hl vp s) := by
  unfold launchFresh
  rcases h : o.launchRes with e | a
  · exact okNE_err _ _
  · exact okNE_ret _ _ _

theorem okNE_launch (o : Oracle) (hl : Option Bool) (vp : Option Viewport)
    (s : GlobalState) : okNE (launchBody o hl vp s) := by
  unfold launchBody
  repeat' split
  all_goals first
    | exact okNE_ret _ _ _
    | exact okNE_launchFresh o hl vp s

theorem okNE_navigate (o : Oracle) (u : String) (s : GlobalState) :
    okNE (navigateBody o u s) := by
  unfold navigateBody
  refine okNE_stepThen _ _ fun _ _ => ?_
  refine okNE_stepThen _ _ fun _ _ => ?_
  refine okNE_stepThen _ _ fun _ _ => ?_
  exact okNE_ret _ _ _

theorem okNE_back (o : Oracle) (s : GlobalState) : okNE (backBody o s) := by
  unfold backBody
  refine okNE_stepThen _ _ fun _ _ => ?_
  refine okNE_stepThen _ _ fun _ _ => ?_
  exact okNE_ret _ _ _

theorem okNE_forward (o : Oracle) (s : GlobalState) : okNE (forwardBody o s) := by
  unfold forwardBody
  refine okNE_stepThen _ _ fun _ _ => ?_
  refine okNE_stepThen _ _ fun _ _ => ?_
  exact okNE_ret _ _ _

theorem okNE_reload (o : Oracle) (s : GlobalState) : okNE (reloadBody o s) := by
  unfold reloadBody
  refine okNE_stepThen _ _ fun _ _ => ?_
  refine okNE_stepThen _ _ fun _ _ => ?_
  exact okNE_ret _ _ _

theorem okNE_click (o : Oracle) (loc : Locator) (b : Option MouseButton)
    (k : Option Int) (s : GlobalState) : okNE (clickBody o loc b k s) := by
  unfold clickBody
  refine okNE_stepThen _ _ fun _ _ => ?_
  refine okNE_stepThen _ _ fun _ _ => ?_
  refine okNE_stepThen _ _ fun _ _ => ?_
  exact okNE_ret _ _ _

theorem okNE_hover (o : Oracle) (loc : Locator) (s : GlobalState) :
    okNE (hoverBody o loc s) := by
  unfold hoverBody
  refine okNE_stepThen _ _ fun _ _ => ?_
  refine okNE_stepThen _ _ fun _ _ => ?_
  refine okNE_stepThen _ _ fun _ _ => ?_
  exact okNE_ret _ _ _

theorem okNE_fill (o : Oracle) (loc : Locator) (t : String) (s : GlobalState) :
    okNE (fillBody o loc t s) := by
  unfold fillBody
  refine okNE_stepThen _ _ fun _ _ => ?_
  refine okNE_stepThen _ _ fun _ _ => ?_
  refine okNE_stepThen _ _ fun _ _ => ?_
  exact okNE_ret _ _ _

theorem okNE_type (o : Oracle) (loc : Locator) (t : String) (d : Option Int)
    (s : GlobalState) : okNE (typeBody o loc t d s) := by
  unfold typeBody
  refine okNE_stepThen _ _ fun _ _ => ?_
  refine okNE_stepThen _ _ fun _ _ => ?_
  refine okNE_stepThen _ _ fun _ _ => ?_
  exact okNE_ret _ _ _

theorem okNE_select (o : Oracle) (loc : Locator) (v : SelValues)
    (s : GlobalState) : okNE (selectBody o loc v s) := by
  unfold selectBody
  refine okNE_stepThen _ _ fun _ _ => ?_
  refine okNE_stepThen _ _ fun _ _ => ?_
  refine okNE_stepThen _ _ fun _ _ => ?_
  exact okNE_ret _ _ _

theorem okNE_check (o : Oracle) (loc : Locator) (s : GlobalState) :
    okNE (checkBody o loc s) := by
  unfold checkBody
  refine okNE_stepThen _ _ fun _ _ => ?_
  refine okNE_stepThen _ _ fun _ _ => ?_
  refine okNE_stepThen _ _ fun _ _ => ?_
  exact okNE_ret _ _ _

theorem okNE_uncheck (o : Oracle) (loc : Locator) (s : GlobalState) :
    okNE (uncheckBody o loc s) := by
  unfold uncheckBody
  refine okNE_stepThen _ _ fun _ _ => ?_
  refine okNE_stepThen _ _ fun _ _ => ?_
  refine okNE_stepThen _ _ fun _ _ => ?_
  exact okNE_ret _ _ _

theorem okNE_press (o : Oracle) (key : String) (sel : Option Locator)
    (s : GlobalState) : okNE (pressBody o key sel s) := by
  unfold pressBody
  refine okNE_stepThen _ _ fun _ _ => ?_
  cases sel with
  | some loc =>
    refine okNE_stepThen _ _ fun _ _ => ?_
    refine okNE_stepThen _ _ fun _ _ => ?_
    exact okNE_ret _ _ _
  | none =>
    refine okNE_stepThen _ _ fun _ _ => ?_
    exact okNE_ret _ _ _

theorem okNE_scroll (o : Oracle) (sel : Option Locator) (x y : Option Int)
    (s : GlobalState) : okNE (scrollBody o sel x y s) := by
  unfold scrollBody
  refine okNE_stepThen _ _ fun _ _ => ?_
  cases sel with
  | some loc =>
    refine okNE_stepThen _ _ fun _ _ => ?_
    refine okNE_stepThen _ _ fun _ _ => ?_
    exact okNE_ret _ _ _
  | none =>
    refine okNE_stepThen _ _ fun _ _ => ?_
    exact okNE_ret _ _ _

theorem okNE_screenshot (o : Oracle) (fp : Option Bool) (sel : Option Locator)
    (s : GlobalState) : okNE (screenshotBody o fp sel s) := by
  unfold screenshotBody
  refine okNE_stepThen _ _ fun _ _ => ?_
  cases sel with
  | some loc =>
    refine okNE_stepThen _ _ fun _ _ => ?_
    refine okNE_stepThen _ _ fun _ _ => ?_
    exact okNE_ret _ _ _
  | none =>
    refine okNE_stepThen _ _ fun _ _ => ?_
    exact okNE_ret _ _ _

theorem okNE_snapshot (o : Oracle) (i cp : Option Bool) (d : Option Int)
    (s : GlobalState) : okNE (snapshotBody o i cp d s) := by
  unfold snapshotBody
  refine okNE_stepThen _ _ fun _ _ => ?_
  refine okNE_stepThen _ _ fun _ _ => ?_
  exact okNE_ret _ _ _

theorem okNE_getText (o : Oracle) (loc : Locator) (s : GlobalState) :
    okNE (getTextBody o loc s) := by
  unfold getTextBody
  refine okNE_stepThen _ _ fun _ _ => ?_
  refine okNE_stepThen _ _ fun _ _ => ?_
  refine okNE_stepThen _ _ fun _ _ => ?_
  exact okNE_ret _ _ _

theorem okNE_getAttribute (o : Oracle) (loc : Locator) (a : String)
    (s : GlobalState) : okNE (getAttributeBody o loc a s) := by
  unfold getAttributeBody
  refine okNE_stepThen _ _ fun _ _ => ?_
  refine okNE_stepThen _ _ fun _ _ => ?_
  refine okNE_stepThen _ _ fun _ _ => ?_
  exact okNE_ret _ _ _

theorem okNE_getUrl (o : Oracle) (s : GlobalState) : okNE (getUrlBody o s) := by
  unfold getUrlBody
  refine okNE_stepThen _ _ fun _ _ => ?_
  refine okNE_stepThen _ _ fun _ _ => ?_
  exact okNE_ret _ _ _

theorem okNE_getTitle (o : Oracle) (s : GlobalState) : okNE (getTitleBody o s) := by
  unfold getTitleBody
  refine okNE_stepThen _ _ fun _ _ => ?_
  refine okNE_stepThen _ _ fun _ _ => ?_
  exact okNE_ret _ _ _

theorem okNE_evaluate (o : Oracle) (sc : String) (s : GlobalState) :
    okNE (evaluateBody o sc s) := by
  unfold evaluateBody
  refine okNE_stepThen _ _ fun _ _ => ?_
  refine okNE_stepThen _ _ fun _ _ => ?_
  exact okNE_ret _ _ _

theorem okNE_waitForSelector (o : Oracle) (sel : String) (st : Option WaitState)
    (t : Option Int) (s : GlobalState) : okNE (waitForSelectorBody o sel st t s) := by
  unfold waitForSelectorBody
  refine okNE_stepThen _ _ fun _ _ => ?_
  refine okNE_stepThen _ _ fun _ _ => ?_
  exact okNE_ret _ _ _

theorem okNE_waitForUrl (o : Oracle) (u : String) (t : Option Int)
    (s : GlobalState) : okNE (waitForUrlBody o u t s) := by
  unfold waitForUrlBody
  refine okNE_stepThen _ _ fun _ _ => ?_
  refine okNE_stepThen _ _ fun _ _ => ?_
  exact okNE_ret _ _ _

theorem okNE_wait (ms : Int) (s : GlobalState) : okNE (waitBody ms s) := by
  unfold waitBody
  exact okNE_ret _ _ _

theorem okNE_newTab (o : Oracle) (u : Option String) (s : GlobalState) :
    okNE (newTabBody o u s) := by
  unfold newTabBody
  refine okNE_stepThen _ _ fun _ _ => ?_
  refine okNE_stepThen _ _ fun _ _ => ?_
  cases u with
  | some v =>
    refine okNE_stepThen _ _ fun _ _ => ?_
    exact okNE_ret _ _ _
  | none => exact okNE_ret _ _ _

theorem okNE_switchTab (o : Oracle) (i : Int) (s : GlobalState) :
    okNE (switchTabBody o i s) := by
  unfold switchTabBody
  refine okNE_stepThen _ _ fun b s1 => ?_
  rcases h : switchTo b i with ⟨e | r, b2⟩
  · exact okNE_err _ _
  · exact okNE_ret _ _ _

theorem okNE_listTabs (o : Oracle) (s : GlobalState) : okNE (listTabsBody o s) := by
  unfold listTabsBody
  refine okNE_stepThen _ _ fun _ _ => ?_
  exact okNE_ret _ _ _

theorem okNE_closeTab (o : Oracle) (i : Option Int) (s : GlobalState) :
    okNE (closeTabBody o i s) := by
  unfold closeTabBody
  refine okNE_stepThen _ _ fun b s1 => ?_
  rcases h : closeTabM b i with ⟨e | r, b2⟩
  · exact okNE_err _ _
  · exact okNE_ret _ _ _

theorem okNE_mouseEvent (o : Oracle) (ty : MouseEventType) (x y : Int)
    (b : Option InjButton) (k dx dy : Option Int) (s : GlobalState) :
    okNE (mouseEventBody o ty x y b k dx dy s) := by
  unfold mouseEventBody
  refine okNE_stepThen _ _ fun _ _ => ?_
  refine okNE_stepThen _ _ fun _ _ => ?_
  exact okNE_ret _ _ _

theorem okNE_keyboardEvent (o : Oracle) (ty : KeyEventType)
    (k cd t : Option String) (s : GlobalState) :
    okNE (keyboardEventBody o ty k cd t s) := by
  unfold keyboardEventBody
  refine okNE_stepThen _ _ fun _ _ => ?_
  refine okNE_stepThen _ _ fun _ _ => ?_
  exact okNE_ret _ _ _

theorem okNE_close (o : Oracle) (s : GlobalState) : okNE (closeBody o s) := by
  unfold closeBody
  rcases h : s.browser with _ | m
  · exact okNE_ret _ _ _
  · rcases h2 : o.closeRes with e | a
    · exact okNE_err _ _
    · exact okNE_ret _ _ _

theorem wrapB_shape (lbl : String) (r : BodyR) (h : okNE r) :
    ((wrapB lbl r).1.isError = false ∧ (wrapB lbl r).1.content ≠ []) ∨
    ∃ e, (wrapB lbl r).1 = errEnv lbl e := by
  rcases r with ⟨x, s⟩
  cases x with
  | error e => exact Or.inr ⟨e, rfl⟩
  | ok cs => exact Or.inl ⟨rfl, h cs rfl⟩

theorem wrapB_snd (lbl : String) (r : BodyR) : (wrapB lbl r).2 = r.2 := by
  rcases r with ⟨x, s⟩
  cases x <;> rfl

/-- C1: every command tool registered in browserToolsServer returns exactly
one result envelope for every argument object, driver outcome and state
(dispatch is a total function, so no exception ever crosses a handler
boundary): on success the envelope carries a non-empty content payload with
the error marker unset, and whenever the driver or the command body throws,
the envelope has isError set to true and its single text block is the
failed-command category label followed by a colon and the underlying error
message. -/
theorem c1_envelope_uniform :
    (∀ t : ToolId, t ∈ serverTools) ∧
    ∀ (o : Oracle) (c : Call) (s : GlobalState),
      ((dispatch o c s).1.isError = false ∧ (dispatch o c s).1.content ≠ []) ∨
      ∃ e, (dispatch o c s).1 = errEnv (failLabel (toolOfCall c)) e := by
  constructor
  · intro t
    cases t <;> decide
  · intro o c s
    cases c with
    | launch hl vp => exact wrapB_shape _ _ (okNE_launch o hl vp s)
    | navigate u => exact wrapB_shape _ _ (okNE_navigate o u s)
    | back => exact wrapB_shape _ _ (okNE_back o s)
    | forward => exact wrapB_shape _ _ (okNE_forward o s)
    | reload => exact wrapB_shape _ _ (okNE_reload o s)
    | click sel b k => exact wrapB_shape _ _ (okNE_click o sel b k s)
    | hover sel => exact wrapB_shape _ _ (okNE_hover o sel s)
    | fill sel t => exact wrapB_shape _ _ (okNE_fill o sel t s)
    | typeText sel t d => exact wrapB_shape _ _ (okNE_type o sel t d s)
    | select sel v => exact wrapB_shape _ _ (okNE_select o sel v s)
    | check sel => exact wrapB_shape _ _ (okNE_check o sel s)
    | uncheck sel => exact wrapB_shape _ _ (okNE_uncheck o sel s)
    | press k sel => exact wrapB_shape _ _ (okNE_press o k sel s)
    | scroll sel x y => exact wrapB_shape _ _ (okNE_scroll o sel x y s)
    | screenshot fp sel => exact wrapB_shape _ _ (okNE_screenshot o fp sel s)
    | snapshot i cp d => exact wrapB_shape _ _ (okNE_snapshot o i cp d s)
    | getText sel => exact wrapB_shape _ _ (okNE_getText o sel s)
    | getAttribute sel a => exact wrapB_shape _ _ (okNE_getAttribute o sel a s)
    | getUrl => exact wrapB_shape _ _ (okNE_getUrl o s)
    | getTitle => exact wrapB_shape _ _ (okNE_getTitle o s)
    | evaluate sc => exact wrapB_shape _ _ (okNE_evaluate o sc s)
    | waitForSelector sel st t => exact wrapB_shape _ _ (okNE_waitForSelector o sel st t s)
    | waitForUrl u t => exact wrapB_shape _ _ (okNE_waitForUrl o u t s)
    | wait ms => exact wrapB_shape _ _ (okNE_wait ms s)
    | newTab u => exact wrapB_shape _ _ (okNE_newTab o u s)
    | switchTab i => exact wrapB_shape _ _ (okNE_switchTab o i s)
    | listTabs => exact wrapB_shape _ _ (okNE_listTabs o s)
    | closeTab i => exact wrapB_shape _ _ (okNE_closeTab o i s)
    | mouseEvent ty x y b k dx dy =>
        exact wrapB_shape _ _ (okNE_mouseEvent o ty x y b k dx dy s)
    | keyboardEvent ty k cd t =>
        exact wrapB_shape _ _ (okNE_keyboardEvent o ty k cd t s)
    | close => exact wrapB_shape _ _ (okNE_close o s)

theorem getBrowserB_some (o : Oracle) {s : GlobalState} {m : Manager}
    (h : s.browser = some m) : getBrowserB o s = (Except.ok m, s) := by
  unfold getBrowserB
  rw [h]

theorem getBrowserB_none_ok (o : Oracle) {s : GlobalState}
    (hb : s.browser = none) (hl : o.launchRes = Except.ok ()) :
    getBrowserB o s =
      (Except.ok (launchManager (newManager s.nextId) { headless := true, viewport := none }),
       { browser := some (launchManager (newManager s.nextId) { headless := true, viewport := none })
         nextId := s.nextId + 1 }) := by
  unfold getBrowserB
  rw [hb, hl]

theorem getBrowserB_none_err (o : Oracle) {s : GlobalState} {e : String}
    (hb : s.browser = none) (hl : o.launchRes = Except.error e) :
    getBrowserB o s =
      (Except.error e,
       { browser := some (newManager s.nextId), nextId := s.nextId + 1 }) := by
  unfold getBrowserB
  rw [hb, hl]

/-- C2 is a code bug, and this theorem records what the code actually does
at the failing scenario: src/index.ts sets browserConfig.headless to false
when the process is started with the no-headless or show-browser flag, but
src/tools.ts neither exports a browserConfig object nor consults one -
getBrowser hardcodes headless true in the launch call it awaits.  So from
every state with no session, for every oracle, the lazily created Session is
launched with headless true; the process-wide toggle cannot influence it. -/
theorem c2_headless_hardcoded (o : Oracle) (s : GlobalState)
    (hb : s.browser = none) (hl : o.launchRes = Except.ok ()) :
    (getBrowserB o s).2.browser.map Manager.headless = some true ∧
    ∃ m, (getBrowserB o s).1 = Except.ok m ∧ m.headless = true := by
  rw [getBrowserB_none_ok o hb hl]
  exact ⟨rfl, _, rfl, rfl⟩

/-- Concrete run for C2: from the initial state (no session), the first
lazy session creation launches with headless true. -/
theorem c2_headless_hardcoded_witness :
    st0.browser = none ∧ oracleOk.launchRes = Except.ok () ∧
    (getBrowserB oracleOk st0).2.browser.map Manager.headless = some true :=
  ⟨rfl, rfl, (c2_headless_hardcoded oracleOk st0 rfl rfl).1⟩

/-- C3: a command that needs a session gets one through getBrowser.  If no
session exists, getBrowser creates one launched with headless true; if the
singleton is non-null (in particular when a session is live) it returns that
very BrowserManager instance with no relaunch and no state change; and after
browser_close resets the singleton to null, a subsequent session-requiring
command such as browser_get_url lazily creates a fresh launched session and
succeeds rather than failing. -/
theorem c3_session_lifecycle (o o2 : Oracle) (s : GlobalState) (m : Manager)
    (u : String) :
    (s.browser = none → o.launchRes = Except.ok () →
      ∃ m1, getBrowserB o s =
          (Except.ok m1, { browser := some m1, nextId := s.nextId + 1 }) ∧
        m1.launched = true ∧ m1.headless = true) ∧
    (s.browser = some m → getBrowserB o s = (Except.ok m, s)) ∧
    (s.browser = some m → o.closeRes = Except.ok () →
      o2.launchRes = Except.ok () → o2.pageUrlRes = Except.ok u →
      (dispatch o Call.close s).1 = okText "Browser closed" ∧
      (dispatch o Call.close s).2.browser = none ∧
      (dispatch o2 Call.getUrl (dispatch o Call.close s).2).1 = okText u ∧
      ∃ m2, (dispatch o2 Call.getUrl (dispatch o Call.close s).2).2.browser = some m2 ∧
        m2.launched = true ∧ m2.headless = true) := by
  refine ⟨?_, ?_, ?_⟩
  · intro hb hl
    rw [getBrowserB_none_ok o hb hl]
    exact ⟨_, rfl, rfl, rfl⟩
  · intro hb
    exact getBrowserB_some o hb
  · intro hb hc hl hu
    have hclose : dispatch o Call.close s =
        (okText "Browser closed", { browser := none, nextId := s.nextId }) := by
      simp [dispatch, closeBody, hb, hc, wrapB, okText, okEnv]
    rw [hclose]
    refine ⟨rfl, rfl, ?_, ?_⟩
    · simp [dispatch, getUrlBody, wrapB, okText, okEnv, stepThen, hu,
        getBrowserB_none_ok o2 (s := { browser := none, nextId := s.nextId }) rfl hl]
    · refine ⟨launchManager (newManager s.nextId) { headless := true, viewport := none },
        ?_, rfl, rfl⟩
      simp [dispatch, getUrlBody, wrapB, stepThen, hu,
        getBrowserB_none_ok o2 (s := { browser := none, nextId := s.nextId }) rfl hl]

/-- Concrete run for C3: lazy creation from the initial state, idempotent
return of the live instance, and close followed by get-url relaunching. -/
theorem c3_session_lifecycle_witness :
    (∃ m1, getBrowserB oracleOk st0 =
        (Except.ok m1, { browser := some m1, nextId := st0.nextId + 1 }) ∧
      m1.launched = true ∧ m1.headless = true) ∧
    getBrowserB oracleOk stLive = (Except.ok mgrLive, stLive) ∧
    ((dispatch oracleOk Call.close stLive).1 = okText "Browser closed" ∧
     (dispatch oracleOk Call.close stLive).2.browser = none ∧
     (dispatch oracleOk Call.getUrl (dispatch oracleOk Call.close stLive).2).1 =
       okText "https://example.test/" ∧
     ∃ m2, (dispatch oracleOk Call.getUrl (dispatch oracleOk Call.close stLive).2).2.browser =
         some m2 ∧ m2.launched = true ∧ m2.headless = true) :=
  ⟨(c3_session_lifecycle oracleOk oracleOk st0 mgrLive "https://example.test/").1 rfl rfl,
   (c3_session_lifecycle oracleOk oracleOk stLive mgrLive "https://example.test/").2.1 rfl,
   (c3_session_lifecycle oracleOk oracleOk stLive mgrLive "https://example.test/").2.2
     rfl rfl rfl rfl⟩

/-- C4: browser_launch while a launched session is live returns the plain
success notice that the browser is already running and leaves the state
untouched; when no launched session exists (null singleton, or a singleton
whose launch never succeeded) it creates and launches a fresh BrowserManager
with the given headless (nullish-defaulted to true) and viewport
arguments. -/
theorem c4_launch_guard (o : Oracle) (s : GlobalState) (m : Manager)
    (hl : Option Bool) (vp : Option Viewport) :
    (s.browser = some m → m.launched = true →
      dispatch o (Call.launch hl vp) s = (okText "Browser already running", s)) ∧
    ((s.browser = none ∨ (s.browser = some m ∧ m.launched = false)) →
      o.launchRes = Except.ok () →
      (dispatch o (Call.launch hl vp) s).1 = okText "Browser launched successfully" ∧
      ∃ m1, (dispatch o (Call.launch hl vp) s).2.browser = some m1 ∧
        m1.launched = true ∧ m1.headless = hl.getD true ∧ m1.viewport = vp ∧
        m1.mid = s.nextId) := by
  constructor
  · intro hb hm
    simp [dispatch, launchBody, hb, hm, wrapB, okText, okEnv]
  · intro hcase hlaunch
    have hfresh : launchBody o hl vp s = launchFresh o hl vp s := by
      rcases hcase with hb | ⟨hb, hm⟩
      · simp [launchBody, hb]
      · simp [launchBody, hb, hm]
    have hrun : dispatch o (Call.launch hl vp) s =
        (okText "Browser launched successfully",
         { browser := some (launchManager (newManager s.nextId)
             { headless := hl.getD true, viewport := vp })
           nextId := s.nextId + 1 }) := by
      simp [dispatch, hfresh, launchFresh, hlaunch, wrapB, okText, okEnv]
    rw [hrun]
    exact ⟨rfl, _, rfl, rfl, rfl, rfl, rfl⟩

/-- Concrete runs for C4: the already-running notice on a live session, and
a fresh launch with explicit headless false from the stuck unlaunched
state. -/
theorem c4_launch_guard_witness :
    dispatch oracleOk (Call.launch (some false) none) stLive =
      (okText "Browser already running", stLive) ∧
    ((dispatch oracleOk (Call.launch (some false) none) stStuck).1 =
      okText "Browser launched successfully" ∧
     ∃ m1, (dispatch oracleOk (Call.launch (some false) none) stStuck).2.browser = some m1 ∧
       m1.launched = true ∧ m1.headless = (some false).getD true ∧ m1.viewport = none ∧
       m1.mid = stStuck.nextId) :=
  ⟨(c4_launch_guard oracleOk stLive mgrLive (some false) none).1 rfl rfl,
   (c4_launch_guard oracleOk stStuck (newManager 0) (some false) none).2
     (Or.inr ⟨rfl, rfl⟩) rfl⟩

/-- C5: when the caller omits the timeout argument, browser_wait_for_selector
and browser_wait_for_url hand the driver a 30000 millisecond timeout, and
browser_wait_for_selector hands it the visible state when state is omitted
(an omitted-argument invocation is indistinguishable from one passing those
defaults explicitly); and when the driver wait rejects - in particular on a
timeout - the command returns the labelled error envelope with the state
unchanged rather than hanging or escalating an unhandled fault. -/
theorem c5_wait_defaults (o : Oracle) (s : GlobalState) (m : Manager)
    (sel u : String) (st : Option WaitState) (e : String) :
    effTimeout none = 30000 ∧ effWaitState none = WaitState.visible ∧
    dispatch o (Call.waitForSelector sel none none) s =
      dispatch o (Call.waitForSelector sel (some WaitState.visible) (some 30000)) s ∧
    dispatch o (Call.waitForUrl u none) s =
      dispatch o (Call.waitForUrl u (some 30000)) s ∧
    (s.browser = some m →
      o.waitSelRes sel (effWaitState st) 30000 = Except.error e →
      dispatch o (Call.waitForSelector sel st none) s = (errEnv "Wait failed" e, s)) ∧
    (s.browser = some m → o.waitUrlRes u 30000 = Except.error e →
      dispatch o (Call.waitForUrl u none) s = (errEnv "Wait for URL failed" e, s)) := by
  refine ⟨rfl, rfl, rfl, rfl, ?_, ?_⟩
  · intro hb herr
    simp [dispatch, waitForSelectorBody, stepThen, getBrowserB_some o hb,
      effTimeout, herr, wrapB]
  · intro hb herr
    simp [dispatch, waitForUrlBody, stepThen, getBrowserB_some o hb,
      effTimeout, herr, wrapB]

/-- Concrete run for C5: with a timing-out driver and a live session, both
waiting commands with omitted timeout return the labelled error envelope. -/
theorem c5_wait_defaults_witness :
    dispatch oracleWaitFail (Call.waitForSelector "#x" none none) stLive =
      (errEnv "Wait failed" "Timeout 30000ms exceeded", stLive) ∧
    dispatch oracleWaitFail (Call.waitForUrl "https://other.test/" none) stLive =
      (errEnv "Wait for URL failed" "Timeout 30000ms exceeded", stLive) :=
  ⟨(c5_wait_defaults oracleWaitFail stLive mgrLive "#x" "https://other.test/"
      none "Timeout 30000ms exceeded").2.2.2.2.1 rfl rfl,
   (c5_wait_defaults oracleWaitFail stLive mgrLive "#x" "https://other.test/"
      none "Timeout 30000ms exceeded").2.2.2.2.2 rfl rfl⟩

/-- C6: browser_switch_tab with an index that is not a currently valid tab
index returns an error envelope whose text starts with the switch-tab
category label, and the active-tab pointer after the call equals the one
before it (the whole state is unchanged). -/
theorem c6_switch_tab_invalid (o : Oracle) (s : GlobalState) (m : Manager)
    (i : Int) (hb : s.browser = some m)
    (hi : ¬(0 ≤ i ∧ i.toNat < m.tabs.length)) :
    dispatch o (Call.switchTab i) s =
      (errEnv "Switch tab failed" "IndexOutOfRangeError", s) ∧
    (dispatch o (Call.switchTab i) s).2.browser.map Manager.active =
      some m.active := by
  have hsw : switchTo m i = (Except.error "IndexOutOfRangeError", m) := by
    simp [switchTo, hi]
  have hrun : dispatch o (Call.switchTab i) s =
      (errEnv "Switch tab failed" "IndexOutOfRangeError", s) := by
    simp [dispatch, switchTabBody, stepThen, getBrowserB_some o hb, hsw, wrapB]
  exact ⟨hrun, by rw [hrun]; simp [hb]⟩

/-- Concrete run for C6: index 5 against a session with two tabs. -/
theorem c6_switch_tab_invalid_witness :
    dispatch oracleOk (Call.switchTab 5) stLive =
      (errEnv "Switch tab failed" "IndexOutOfRangeError", stLive) ∧
    (dispatch oracleOk (Call.switchTab 5) stLive).2.browser.map Manager.active =
      some mgrLive.active :=
  c6_switch_tab_invalid oracleOk stLive mgrLive 5 rfl (by decide)

/-- C9: passing an explicit timeout of 0 to either waiting command is
converted by the or-default into the 30000 millisecond default - the
effective timeout handed to the driver is 30000, and the whole command run
is identical to one with the timeout omitted, for every oracle and state. -/
theorem c9_zero_timeout (o : Oracle) (s : GlobalState) (sel u : String)
    (st : Option WaitState) :
    effTimeout (some 0) = 30000 ∧
    dispatch o (Call.waitForSelector sel st (some 0)) s =
      dispatch o (Call.waitForSelector sel st none) s ∧
    dispatch o (Call.waitForUrl u (some 0)) s =
      dispatch o (Call.waitForUrl u none) s :=
  ⟨rfl, rfl, rfl⟩

/-- C10: browser_get_text renders a null or empty text content as the
literal string (empty), and browser_get_attribute renders a missing or
empty attribute value as the literal string (null); an element whose actual
value is one of those literal strings produces the same success envelope,
so the cases are indistinguishable to the caller. -/
theorem c10_empty_sentinels (o : Oracle) (s : GlobalState) (m : Manager)
    (c a : String) (hb : s.browser = some m) :
    (o.textContentRes = Except.ok none ∨ o.textContentRes = Except.ok (some "") ∨
        o.textContentRes = Except.ok (some "(empty)") →
      dispatch o (Call.getText (Locator.css c)) s = (okText "(empty)", s)) ∧
    (o.getAttrRes = Except.ok none ∨ o.getAttrRes = Except.ok (some "") ∨
        o.getAttrRes = Except.ok (some "(null)") →
      dispatch o (Call.getAttribute (Locator.css c) a) s = (okText "(null)", s)) := by
  constructor
  · intro hcase
    rcases hcase with h | h | h <;>
      simp [dispatch, getTextBody, stepThen, getBrowserB_some o hb, getLocator,
        h, jsOrStr, wrapB, okText, okEnv]
  · intro hcase
    rcases hcase with h | h | h <;>
      simp [dispatch, getAttributeBody, stepThen, getBrowserB_some o hb, getLocator,
        h, jsOrStr, wrapB, okText, okEnv]

/-- Concrete run for C10: null reads yield the two sentinel texts. -/
theorem c10_empty_sentinels_witness :
    dispatch oracleNullRead (Call.getText (Locator.css "#x")) stLive =
      (okText "(empty)", stLive) ∧
    dispatch oracleNullRead (Call.getAttribute (Locator.css "#x") "href") stLive =
      (okText "(null)", stLive) :=
  ⟨(c10_empty_sentinels oracleNullRead stLive mgrLive "#x" "href" rfl).1 (Or.inl rfl),
   (c10_empty_sentinels oracleNullRead stLive mgrLive "#x" "href" rfl).2 (Or.inl rfl)⟩

/-- C7: a reference token minted by a snapshot of generation G resolves
while that generation is current, but after any further successful
browser_snapshot call it fails resolution with UnknownReferenceError even
when the node it referred to is still present (its name is in the new
table), so an element-targeted command such as browser_click using it
returns the labelled error envelope instead of acting on any element. -/
theorem c7_ref_supersession (o1 o2 o3 : Oracle) (s : GlobalState) (m : Manager)
    (t1 t2 : String) (ns1 ns2 : List String) (n : String)
    (bt : Option MouseButton) (ck : Option Int)
    (hb : s.browser = some m)
    (h1 : o1.snapRes = Except.ok (t1, ns1))
    (hn : n ∈ ns1)
    (h2 : o2.snapRes = Except.ok (t2, ns2))
    (hstill : n ∈ ns2) :
    ∃ m1 m2,
      (dispatch o1 (Call.snapshot none none none) s).2.browser = some m1 ∧
      getLocator m1 (Locator.ref { name := n, gen := m.refGen + 1 }) = Except.ok () ∧
      (dispatch o2 (Call.snapshot none none none)
          (dispatch o1 (Call.snapshot none none none) s).2).2.browser = some m2 ∧
      n ∈ m2.refTable ∧
      getLocator m2 (Locator.ref { name := n, gen := m.refGen + 1 }) =
        Except.error "UnknownReferenceError" ∧
      (dispatch o3 (Call.click (Locator.ref { name := n, gen := m.refGen + 1 }) bt ck)
          (dispatch o2 (Call.snapshot none none none)
            (dispatch o1 (Call.snapshot none none none) s).2).2).1 =
        errEnv "Click failed" "UnknownReferenceError" := by
  have hs1 : (dispatch o1 (Call.snapshot none none none) s).2 =
      { browser := some { m with refGen := m.refGen + 1, refTable := ns1 }
        nextId := s.nextId } := by
    simp [dispatch, snapshotBody, stepThen, getBrowserB_some o1 hb, h1, wrapB, setMgr]
  have hb1 : (({ browser := some { m with refGen := m.refGen + 1, refTable := ns1 }
                 nextId := s.nextId } : GlobalState)).browser =
      some { m with refGen := m.refGen + 1, refTable := ns1 } := rfl
  have hs2 : (dispatch o2 (Call.snapshot none none none)
      (dispatch o1 (Call.snapshot none none none) s).2).2 =
      { browser := some { m with refGen := m.refGen + 1 + 1, refTable := ns2 }
        nextId := s.nextId } := by
    rw [hs1]
    simp [dispatch, snapshotBody, stepThen, getBrowserB_some o2 hb1, h2, wrapB, setMgr]
  have hne : m.refGen + 1 ≠ m.refGen + 1 + 1 := by omega
  refine ⟨{ m with refGen := m.refGen + 1, refTable := ns1 },
    { m with refGen := m.refGen + 1 + 1, refTable := ns2 }, ?_, ?_, ?_, hstill, ?_, ?_⟩
  · rw [hs1]
  · simp [getLocator, hn]
  · rw [hs2]
  · simp [getLocator, hne]
  · have hb2 : (({ browser := some { m with refGen := m.refGen + 1 + 1, refTable := ns2 }
                   nextId := s.nextId } : GlobalState)).browser =
        some { m with refGen := m.refGen + 1 + 1, refTable := ns2 } := rfl
    rw [hs2]
    simp [dispatch, clickBody, stepThen, getBrowserB_some o3 hb2, getLocator, hne, wrapB]

/-- Concrete run for C7: token e1 from the first snapshot stops resolving
after a second snapshot that mints the same name, and clicking it fails. -/
theorem c7_ref_supersession_witness :
    ∃ m1 m2,
      (dispatch oracleOk (Call.snapshot none none none) stLive).2.browser = some m1 ∧
      getLocator m1 (Locator.ref { name := "e1", gen := mgrLive.refGen + 1 }) =
        Except.ok () ∧
      (dispatch oracleOk (Call.snapshot none none none)
          (dispatch oracleOk (Call.snapshot none none none) stLive).2).2.browser =
        some m2 ∧
      "e1" ∈ m2.refTable ∧
      getLocator m2 (Locator.ref { name := "e1", gen := mgrLive.refGen + 1 }) =
        Except.error "UnknownReferenceError" ∧
      (dispatch oracleOk (Call.click (Locator.ref { name := "e1", gen := mgrLive.refGen + 1 })
            none none)
          (dispatch oracleOk (Call.snapshot none none none)
            (dispatch oracleOk (Call.snapshot none none none) stLive).2).2).1 =
        errEnv "Click failed" "UnknownReferenceError" :=
  c7_ref_supersession oracleOk oracleOk oracleOk stLive mgrLive
    "- button \x22Go\x22 [ref=e1]" "- button \x22Go\x22 [ref=e1]" ["e1"] ["e1"] "e1"
    none none rfl rfl (by decide) rfl (by decide)

theorem switchTo_pres (m : Manager) (i : Int) :
    (switchTo m i).2.mid = m.mid ∧ (switchTo m i).2.launched = m.launched := by
  unfold switchTo
  split <;> simp

theorem closeAt_pres (m : Manager) (k : Nat) :
    (closeAt m k).2.mid = m.mid ∧ (closeAt m k).2.launched = m.launched := by
  simp [closeAt]

theorem closeTabM_pres (m : Manager) (i : Option Int) :
    (closeTabM m i).2.mid = m.mid ∧ (closeTabM m i).2.launched = m.launched := by
  unfold closeTabM
  split
  · exact ⟨rfl, rfl⟩
  · cases i with
    | none => exact closeAt_pres m m.active
    | some j =>
      show (if 0 ≤ j ∧ j.toNat < m.tabs.length then closeAt m j.toNat
          else (Except.error "IndexOutOfRangeError", m)).2.mid = m.mid ∧
        (if 0 ≤ j ∧ j.toNat < m.tabs.length then closeAt m j.toNat
          else (Except.error "IndexOutOfRangeError", m)).2.launched = m.launched
      by_cases hj : 0 ≤ j ∧ j.toNat < m.tabs.length
      · rw [if_pos hj]
        exact closeAt_pres m j.toNat
      · rw [if_neg hj]
        exact ⟨rfl, rfl⟩

/-- C8: when the awaited driver launch inside getBrowser throws during lazy
session creation, the singleton has already been assigned the fresh
never-launched BrowserManager and the error path does not reset it; every
later call through getBrowser then finds the singleton non-null and returns
that same unlaunched instance with no launch retry; no command other than
browser_launch and browser_close ever replaces the held instance or changes
its launched flag; and browser_launch, whose guard tests isLaunched rather
than mere non-nullness, replaces it with a fresh successfully launched
manager. -/
theorem c8_failed_launch_sticky (o : Oracle) (s : GlobalState) (e : String)
    (m : Manager) (c : Call) (hl : Option Bool) (vp : Option Viewport) :
    (s.browser = none → o.launchRes = Except.error e →
      getBrowserB o s =
        (Except.error e,
         { browser := some (newManager s.nextId), nextId := s.nextId + 1 }) ∧
      (newManager s.nextId).launched = false) ∧
    (s.browser = some m → m.launched = false →
      getBrowserB o s = (Except.ok m, s)) ∧
    (s.browser = some m → toolOfCall c ≠ ToolId.launch →
      toolOfCall c ≠ ToolId.close →
      (dispatch o c s).2.browser.map Manager.mid = some m.mid ∧
      (dispatch o c s).2.browser.map Manager.launched = some m.launched) ∧
    (s.browser = some m → m.launched = false → o.launchRes = Except.ok () →
      ∃ m1, (dispatch o (Call.launch hl vp) s).2.browser = some m1 ∧
        m1.launched = true ∧ m1.mid = s.nextId) := by
  refine ⟨?_, ?_, ?_, ?_⟩
  · intro hb hlr
    exact ⟨getBrowserB_none_err o hb hlr, rfl⟩
  · intro hb _
    exact getBrowserB_some o hb
  · intro hb h1 h2
    have gB := getBrowserB_some o hb
    cases c with
    | launch hl2 vp2 => exact absurd rfl h1
    | close => exact absurd rfl h2
    | navigate u =>
      rcases hx : o.gotoRes u with e1 | a1 <;> rcases hy : o.titleRes with e2 | a2 <;>
        simp [dispatch, wrapB_snd, navigateBody, stepThen, gB, hx, hy, hb]
    | back =>
      rcases hx : o.goBackRes with e1 | a1 <;>
        simp [dispatch, wrapB_snd, backBody, stepThen, gB, hx, hb]
    | forward =>
      rcases hx : o.goForwardRes with e1 | a1 <;>
        simp [dispatch, wrapB_snd, forwardBody, stepThen, gB, hx, hb]
    | reload =>
      rcases hx : o.reloadRes with e1 | a1 <;>
        simp [dispatch, wrapB_snd, reloadBody, stepThen, gB, hx, hb]
    | click sel b k =>
      rcases hx : getLocator m sel with e1 | a1 <;> rcases hy : o.clickRes with e2 | a2 <;>
        simp [dispatch, wrapB_snd, clickBody, stepThen, gB, hx, hy, hb]
    | hover sel =>
      rcases hx : getLocator m sel with e1 | a1 <;> rcases hy : o.hoverRes with e2 | a2 <;>
        simp [dispatch, wrapB_snd, hoverBody, stepThen, gB, hx, hy, hb]
    | fill sel t =>
      rcases hx : getLocator m sel with e1 | a1 <;> rcases hy : o.fillRes with e2 | a2 <;>
        simp [dispatch, wrapB_snd, fillBody, stepThen, gB, hx, hy, hb]
    | typeText sel t d =>
      rcases hx : getLocator m sel with e1 | a1 <;> rcases hy : o.typeRes with e2 | a2 <;>
        simp [dispatch, wrapB_snd, typeBody, stepThen, gB, hx, hy, hb]
    | select sel v =>
      rcases hx : getLocator m sel with e1 | a1 <;> rcases hy : o.selectRes with e2 | a2 <;>
        simp [dispatch, wrapB_snd, selectBody, stepThen, gB, hx, hy, hb]
    | check sel =>
      rcases hx : getLocator m sel with e1 | a1 <;> rcases hy : o.checkRes with e2 | a2 <;>
        simp [dispatch, wrapB_snd, checkBody, stepThen, gB, hx, hy, hb]
    | uncheck sel =>
      rcases hx : getLocator m sel with e1 | a1 <;> rcases hy : o.uncheckRes with e2 | a2 <;>
        simp [dispatch, wrapB_snd, uncheckBody, stepThen, gB, hx, hy, hb]
    | press k sel =>
      cases sel with
      | none =>
        rcases hx : o.pressRes with e1 | a1 <;>
          simp [dispatch, wrapB_snd, pressBody, stepThen, gB, hx, hb]
      | some loc =>
        rcases hx : getLocator m loc with e1 | a1 <;> rcases hy : o.pressRes with e2 | a2 <;>
          simp [dispatch, wrapB_snd, pressBody, stepThen, gB, hx, hy, hb]
    | scroll sel x y =>
      cases sel with
      | none =>
        rcases hx : o.wheelRes (jsOrInt x 0) (jsOrInt y 300) with e1 | a1 <;>
          simp [dispatch, wrapB_snd, scrollBody, stepThen, gB, hx, hb]
      | some loc =>
        rcases hx : getLocator m loc with e1 | a1 <;>
          rcases hy : o.scrollElRes with e2 | a2 <;>
          simp [dispatch, wrapB_snd, scrollBody, stepThen, gB, hx, hy, hb]
    | screenshot fp sel =>
      cases sel with
      | none =>
        rcases hx : o.shotRes with e1 | a1 <;>
          simp [dispatch, wrapB_snd, screenshotBody, stepThen, gB, hx, hb]
      | some loc =>
        rcases hx : getLocator m loc with e1 | a1 <;> rcases hy : o.shotRes with e2 | a2 <;>
          simp [dispatch, wrapB_snd, screenshotBody, stepThen, gB, hx, hy, hb]
    | snapshot i cp d =>
      rcases hx : o.snapRes with e1 | r <;>
        simp [dispatch, wrapB_snd, snapshotBody, stepThen, gB, hx, hb, setMgr]
    | getText sel =>
      rcases hx : getLocator m sel with e1 | a1 <;>
        rcases hy : o.textContentRes with e2 | a2 <;>
        simp [dispatch, wrapB_snd, getTextBody, stepThen, gB, hx, hy, hb]
    | getAttribute sel a =>
      rcases hx : getLocator m sel with e1 | a1 <;>
        rcases hy : o.getAttrRes with e2 | a2 <;>
        simp [dispatch, wrapB_snd, getAttributeBody, stepThen, gB, hx, hy, hb]
    | getUrl =>
      rcases hx : o.pageUrlRes with e1 | a1 <;>
        simp [dispatch, wrapB_snd, getUrlBody, stepThen, gB, hx, hb]
    | getTitle =>
      rcases hx : o.titleRes with e1 | a1 <;>
        simp [dispatch, wrapB_snd, getTitleBody, stepThen, gB, hx, hb]
    | evaluate sc =>
      rcases hx : o.evalRes sc with e1 | a1 <;>
        simp [dispatch, wrapB_snd, evaluateBody, stepThen, gB, hx, hb]
    | waitForSelector sel st t =>
      rcases hx : o.waitSelRes sel (effWaitState st) (effTimeout t) with e1 | a1 <;>
        simp [dispatch, wrapB_snd, waitForSelectorBody, stepThen, gB, hx, hb]
    | waitForUrl u t =>
      rcases hx : o.waitUrlRes u (effTimeout t) with e1 | a1 <;>
        simp [dispatch, wrapB_snd, waitForUrlBody, stepThen, gB, hx, hb]
    | wait ms => simp [dispatch, wrapB_snd, waitBody, hb]
    | newTab u =>
      rcases hx : o.newTabRes with e1 | a1
      · simp [dispatch, wrapB_snd, newTabBody, stepThen, gB, hx, hb]
      · cases u with
        | none => simp [dispatch, wrapB_snd, newTabBody, stepThen, gB, hx, hb, setMgr]
        | some v =>
          rcases hy : o.gotoRes v with e2 | a2 <;>
            simp [dispatch, wrapB_snd, newTabBody, stepThen, gB, hx, hy, hb, setMgr]
    | switchTab i =>
      have hpres := switchTo_pres m i
      rcases hx : switchTo m i with ⟨x, b2⟩
      rw [hx] at hpres
      cases x with
      | error e1 => simp [dispatch, wrapB_snd, switchTabBody, stepThen, gB, hx, hb]
      | ok r =>
        simp [dispatch, wrapB_snd, switchTabBody, stepThen, gB, hx, hb, setMgr]
        exact hpres
    | listTabs => simp [dispatch, wrapB_snd, listTabsBody, stepThen, gB, hb]
    | closeTab i =>
      have hpres := closeTabM_pres m i
      rcases hx : closeTabM m i with ⟨x, b2⟩
      rw [hx] at hpres
      cases x with
      | error e1 => simp [dispatch, wrapB_snd, closeTabBody, stepThen, gB, hx, hb]
      | ok r =>
        simp [dispatch, wrapB_snd, closeTabBody, stepThen, gB, hx, hb, setMgr]
        exact hpres
    | mouseEvent ty x y b k dx dy =>
      rcases hx : o.mouseRes with e1 | a1 <;>
        simp [dispatch, wrapB_snd, mouseEventBody, stepThen, gB, hx, hb]
    | keyboardEvent ty k cd t =>
      rcases hx : o.keyboardRes with e1 | a1 <;>
        simp [dispatch, wrapB_snd, keyboardEventBody, stepThen, gB, hx, hb]
  · intro hb hm hlaunch
    have hfresh : launchBody o hl vp s = launchFresh o hl vp s := by
      simp [launchBody, hb, hm]
    have hrun : dispatch o (Call.launch hl vp) s =
        (okText "Browser launched successfully",
         { browser := some (launchManager (newManager s.nextId)
             { headless := hl.getD true, viewport := vp })
           nextId := s.nextId + 1 }) := by
      simp [dispatch, hfresh, launchFresh, hlaunch, wrapB, okText, okEnv]
    rw [hrun]
    exact ⟨launchManager (newManager s.nextId) { headless := hl.getD true, viewport := vp },
      rfl, rfl, rfl⟩

/-- Concrete run for C8: a failed lazy launch leaves the unlaunched manager
in the singleton, a later get-url command reuses it unlaunched, and an
explicit browser_launch replaces it with a launched manager. -/
theorem c8_failed_launch_sticky_witness :
    (getBrowserB oracleLaunchFail st0 =
      (Except.error "spawn chromium ENOENT",
       { browser := some (newManager st0.nextId), nextId := st0.nextId + 1 }) ∧
     (newManager st0.nextId).launched = false) ∧
    getBrowserB oracleLaunchFail stStuck = (Except.ok (newManager 0), stStuck) ∧
    ((dispatch oracleLaunchFail Call.getUrl stStuck).2.browser.map Manager.mid =
       some (newManager 0).mid ∧
     (dispatch oracleLaunchFail Call.getUrl stStuck).2.browser.map Manager.launched =
       some (newManager 0).launched) ∧
    (∃ m1, (dispatch oracleOk (Call.launch none none) stStuck).2.browser = some m1 ∧
      m1.launched = true ∧ m1.mid = stStuck.nextId) :=
  ⟨(c8_failed_launch_sticky oracleLaunchFail st0 "spawn chromium ENOENT"
      (newManager 0) Call.getUrl none none).1 rfl rfl,
   (c8_failed_launch_sticky oracleLaunchFail stStuck "spawn chromium ENOENT"
      (newManager 0) Call.getUrl none none).2.1 rfl rfl,
   (c8_failed_launch_sticky oracleLaunchFail stStuck "spawn chromium ENOENT"
      (newManager 0) Call.getUrl none none).2.2.1 rfl (by decide) (by decide),
   (c8_failed_launch_sticky oracleOk stStuck "spawn chromium ENOENT"
      (newManager 0) Call.getUrl none none).2.2.2 rfl rfl rfl⟩

end Clawler
